import Mathlib

/-!
# Verification of the obsidian-ragflow-sync client and its RAGFlow HTTP contract

This development shallowly embeds:

* the TypeScript client `src/ragflowApi.ts` (the `request` helper's
  configuration checks, HTTP-status handling, `{code, data|message}` envelope
  handling, and the delete payloads), and
* the retrieval / dataset-update / knowledge-graph contract documented by the
  RAGFlow HTTP API reference shipped with the repository.  The engine behind
  that contract is not part of the repository, so those operations are
  modelled from the specification's words, faithfully to the documented
  parameter semantics (marked `Modelled from the spec:` below).

Machine reals in the scoring formula are modelled as rationals (`ℚ`): every
concrete value appearing in the contract (0.3, 0.2, 0.8, 0.5, 0.59) is exactly
representable, so the documented arithmetic identities are exact.
-/

namespace RagflowSync

/-! ## Client: the shared `request` helper (`src/ragflowApi.ts`)

`RagflowApi.request` first validates configuration, then issues the network
call, then checks the HTTP status, then unwraps the `{code, data|message}`
envelope.  Each stage is embedded separately below. -/

/-- Outcome of the configuration-check stage of `RagflowApi.request`
(`src/ragflowApi.ts` lines 158–166): either a synchronous configuration
error thrown before any network request, or the network call that is issued,
carrying the URL built from `baseUrl` and `path`. -/
inductive RequestAction where
  | configError (msg : String)
  | networkCall (url : String)
deriving DecidableEq, Repr

/-- The configuration checks and URL construction at the top of
`RagflowApi.request`: an empty `baseUrl` throws first, then an empty
`apiKey`; otherwise the URL is `baseUrl` + `path`, inserting a `/` when
`path` does not start with one.  JavaScript's `!s` on a string is truth-falsy
exactly on the empty string, embedded as equality with `""`. -/
def requestAction (baseUrl apiKey path : String) : RequestAction :=
  if baseUrl = "" then
    .configError "Ragflow base URL is not configured"
  else if apiKey = "" then
    .configError "Ragflow API key is not configured"
  else
    .networkCall (baseUrl ++ (if path.startsWith "/" then "" else "/") ++ path)

/-- The HTTP-status check of `RagflowApi.request` (`src/ragflowApi.ts`
lines 208–211): the message is the response text when non-empty
(JavaScript `response.text || fallback`), else a generic message naming the
status code. -/
def httpErrorMessage (status : Nat) (text : String) : String :=
  "Ragflow request error: " ++
    (if text = "" then "Request failed with status " ++ toString status else text)

/-- Status handling of `RagflowApi.request`: statuses ≥ 400 become a thrown
`Error` built by `httpErrorMessage`; lower statuses proceed to envelope
handling with the response text intact. -/
def handleHttpStatus (status : Nat) (text : String) : Except String String :=
  if status ≥ 400 then .error (httpErrorMessage status text) else .ok text

/-- The uniform response envelope `{code, data|message}` of the RAGFlow API,
as the client sees it after JSON parsing when the body is an object carrying
a `code` field (`ApiResponse<T>` in `src/ragflowApi.ts`).  `data = none`
models an absent (or null) `data` member, which JavaScript's `??` treats
alike. -/
structure Envelope (α : Type) where
  code : Int
  message : Option String
  data : Option α
deriving DecidableEq, Repr

/-- What a successful `request` returns once the body is a `code` envelope:
either the `data` payload, or — when `data` is absent — the whole body
(`apiResp.data ?? (json as T)` in `src/ragflowApi.ts` line 222). -/
inductive EnvelopeResult (α : Type) where
  | payload (a : α)
  | wholeBody (e : Envelope α)
deriving DecidableEq, Repr

/-- Envelope handling of `RagflowApi.request` (`src/ragflowApi.ts`
lines 213–223): non-zero `code` throws the server's `message`, or a generic
message naming the code when `message` is absent; `code = 0` succeeds with
the `data` payload, falling back to the whole body when `data` is absent. -/
def handleEnvelope {α : Type} (e : Envelope α) : Except String (EnvelopeResult α) :=
  if e.code ≠ 0 then
    .error (e.message.getD ("Ragflow request error (code " ++ toString e.code ++ ")"))
  else
    match e.data with
    | some a => .ok (.payload a)
    | none => .ok (.wholeBody e)

/-! ## Client: delete payloads (`src/ragflowApi.ts`) -/

/-- A client request body for the two delete endpoints.  `ids = none` models
the JSON `null` that the documented endpoint interprets as "delete all
datasets"; `some l` models an explicit array of ids. -/
structure DeleteRequest where
  method : String
  path : String
  ids : Option (List String)
deriving DecidableEq, Repr

/-- `RagflowApi.deleteKnowledgeBase` (`src/ragflowApi.ts` lines 101–103):
sends `DELETE /api/v1/datasets` with body `{ids: [id]}`. -/
def deleteKnowledgeBaseRequest (id : String) : DeleteRequest :=
  { method := "DELETE", path := "/api/v1/datasets", ids := some [id] }

/-- `RagflowApi.deleteFile` (`src/ragflowApi.ts` lines 122–124): sends
`DELETE /api/v1/datasets/{kb}/documents` with body `{ids: [fileId]}`. -/
def deleteFileRequest (knowledgeBaseId fileId : String) : DeleteRequest :=
  { method := "DELETE"
    path := "/api/v1/datasets/" ++ knowledgeBaseId ++ "/documents"
    ids := some [fileId] }

/-- The delete-all behaviour documented for `DELETE /api/v1/datasets`
(API reference, "Delete datasets — ids"): all datasets are deleted exactly
when `ids` is `null`. -/
def deleteAllTriggered (ids : Option (List String)) : Bool :=
  ids.isNone

/-! ## Retrieval engine: hybrid scoring and threshold

The retrieval engine itself is not shipped in this repository; the following
definitions are modelled from the specification, grounded in the parameter
semantics of `POST /api/v1/retrieval` in the bundled API reference
(defaults 0.3 and 0.2, and the `(1 - x)` term-weight rule). -/

/-- Modelled from the spec: the documented default of
`vector_similarity_weight` (API reference: "Defaults to `0.3`"). -/
def defaultVectorSimilarityWeight : ℚ := 3 / 10

/-- Modelled from the spec: the documented default of
`similarity_threshold` (API reference: "Defaults to `0.2`"). -/
def defaultSimilarityThreshold : ℚ := 2 / 10

/-- A retrieval candidate chunk with its two per-chunk similarity components,
as they appear in the retrieval response (`vector_similarity`,
`term_similarity`). -/
structure Candidate where
  id : String
  vectorSim : ℚ
  termSim : ℚ
deriving DecidableEq, Repr

/-- Modelled from the spec: the hybrid combined score.
`w * cosine + (1 - w) * term_similarity`; when a rerank model id is
supplied, the rerank model's cross-similarity score substitutes for the
vector term. -/
def combinedScore (rerankScore : Option ℚ) (w : ℚ) (c : Candidate) : ℚ :=
  match rerankScore with
  | some r => w * r + (1 - w) * c.termSim
  | none => w * c.vectorSim + (1 - w) * c.termSim

/-- Modelled from the spec: step 4 of the retrieval algorithm — candidates
whose combined score is below `similarity_threshold` are discarded, the
rest are kept. -/
def applyThreshold (rerankScore : Option ℚ) (w t : ℚ) (cands : List Candidate) :
    List Candidate :=
  cands.filter (fun c => ¬ combinedScore rerankScore w c < t)

/-! ## Retrieval engine: metadata conditions

The operator grammar is embedded from the `metadata_condition` /
`comparison_operator` section of the bundled API reference; evaluation
semantics of each operator are modelled from the spec's filter-grammar
description. -/

/-- The comparison operators of the `metadata_condition` grammar, exactly as
enumerated in the API reference for `comparison_operator`. -/
inductive ComparisonOperator where
  | containsOp
  | notContainsOp
  | startWith
  | emptyOp
  | notEmptyOp
  | eq
  | ne
  | gt
  | lt
  | ge
  | le
deriving DecidableEq, Repr

/-- The operator strings the `comparison_operator` field accepts, embedded
one-for-one from the API reference's list. -/
def parseComparisonOperator (s : String) : Option ComparisonOperator :=
  if s = "contains" then some .containsOp
  else if s = "not contains" then some .notContainsOp
  else if s = "start with" then some .startWith
  else if s = "empty" then some .emptyOp
  else if s = "not empty" then some .notEmptyOp
  else if s = "=" then some .eq
  else if s = "≠" then some .ne
  else if s = ">" then some .gt
  else if s = "<" then some .lt
  else if s = "≥" then some .ge
  else if s = "≤" then some .le
  else none

/-- Accumulate a decimal digit string into a value; any non-digit character
fails the parse. -/
def parseDigitsAux : List Char → Nat → Option Nat
  | [], acc => some acc
  | c :: cs, acc =>
    if c.isDigit then parseDigitsAux cs (acc * 10 + (c.toNat - 48)) else none

/-- Parse a string as a (possibly negative) decimal integer; `none` when the
string is empty or holds a non-digit character. -/
def parseIntString (s : String) : Option Int :=
  match s.data with
  | [] => none
  | '-' :: cs =>
    match cs with
    | [] => none
    | _ => (parseDigitsAux cs 0).map (fun n => -(n : Int))
  | cs => (parseDigitsAux cs 0).map (fun n => (n : Int))

/-- Document metadata: an arbitrary key → value map, modelled as an
association list of string pairs. -/
structure DocMeta where
  id : String
  fields : List (String × String)
deriving DecidableEq, Repr

/-- The value of a metadata field, when present. -/
def DocMeta.lookup (d : DocMeta) (name : String) : Option String :=
  (d.fields.find? (fun p => p.1 = name)).map Prod.snd

/-- Modelled from the spec: evaluation of one comparison operator against
the (possibly absent) field value.  Equality and inequality compare strings;
`contains` is substring membership; `start with` is a prefix test; `empty`
holds when the field is absent or blank; the numeric comparisons parse both
sides as integers and are false when either side does not parse. -/
def evalOp (op : ComparisonOperator) (field : Option String) (value : String) : Bool :=
  match op with
  | .containsOp => (field.map (fun f => f.containsSubstr value)).getD false
  | .notContainsOp => (field.map (fun f => ! f.containsSubstr value)).getD false
  | .startWith => (field.map (fun f => f.startsWith value)).getD false
  | .emptyOp => match field with | none => true | some f => f == ""
  | .notEmptyOp => match field with | none => false | some f => f != ""
  | .eq => (field.map (fun f => f == value)).getD false
  | .ne => (field.map (fun f => f != value)).getD false
  | .gt => (numCmp field value (fun a b => b < a)).getD false
  | .lt => (numCmp field value (fun a b => a < b)).getD false
  | .ge => (numCmp field value (fun a b => b ≤ a)).getD false
  | .le => (numCmp field value (fun a b => a ≤ b)).getD false
where
  /-- Parse both sides as integers and compare; `none` when either fails. -/
  numCmp (field : Option String) (value : String) (cmp : Int → Int → Bool) :
      Option Bool := do
    let f ← field
    let a ← parseIntString f
    let b ← parseIntString value
    pure (cmp a b)

/-- One leaf condition of a `metadata_condition`: a field name, an operator,
and a comparison value (ignored by `empty` / `not empty`). -/
structure MetaCondition where
  name : String
  op : ComparisonOperator
  value : String
deriving DecidableEq, Repr

/-- A condition is satisfied by a document when its operator holds of the
named metadata field. -/
def evalCondition (d : DocMeta) (c : MetaCondition) : Bool :=
  evalOp c.op (d.lookup c.name) c.value

/-- The `logic` connective of a `metadata_condition`. -/
inductive LogicOp where
  | and
  | or
deriving DecidableEq, Repr

/-- A full `metadata_condition`: a connective over a list of conditions. -/
structure MetadataCondition where
  logic : LogicOp
  conditions : List MetaCondition
deriving DecidableEq, Repr

/-- Modelled from the spec: `logic = and` keeps only documents satisfying
every condition, `logic = or` those satisfying at least one (API reference:
"and": return only results that satisfy every condition; "or": results that
satisfy any condition). -/
def evalMetadataCondition (mc : MetadataCondition) (d : DocMeta) : Bool :=
  match mc.logic with
  | .and => mc.conditions.all (evalCondition d)
  | .or => mc.conditions.any (evalCondition d)

/-- Modelled from the spec: documents not matching the metadata condition
are excluded from the candidate pool. -/
def filterDocs (mc : MetadataCondition) (docs : List DocMeta) : List DocMeta :=
  docs.filter (evalMetadataCondition mc)

/-! ## Retrieval engine: synchronous request validation -/

/-- `true` when every element of the list equals the first: the embedding
models of all selected documents agree. -/
def allSameModel (models : List String) : Bool :=
  match models with
  | [] => true
  | m :: ms => ms.all (fun x => x == m)

/-- Modelled from the spec: the synchronous validation of a retrieval
request.  Specifying neither datasets nor documents is a validation error
(the API reference's failure example answers code 102 with
"\x60datasets\x60 is required."), and mixing embedding models across the
selected documents is a validation error ("Ensure that all selected
documents use the same embedding model.  Otherwise, an error will
occur."). -/
def validateRetrieval (datasetIds documentIds : List String)
    (docModels : List String) : Except String Unit :=
  if datasetIds.isEmpty && documentIds.isEmpty then
    .error "`datasets` is required."
  else if ! allSameModel docModels then
    .error "All documents must use the same embedding model."
  else
    .ok ()

/-! ## Dataset update: embedding-model immutability -/

/-- The dataset fields relevant to the update operation. -/
structure Dataset where
  name : String
  embedding_model : String
  chunk_count : Nat
deriving DecidableEq, Repr

/-- The body of a `PUT /api/v1/datasets/{id}` request; `none` fields are
left unchanged. -/
structure DatasetUpdate where
  name : Option String
  embedding_model : Option String
deriving DecidableEq, Repr

/-- Modelled from the spec: `Update dataset`.  The embedding-model field is
immutable once `chunk_count > 0` (API reference: "Ensure that
\x60chunk_count\x60 is \x600\x60 before updating \x60embedding_model\x60"):
a request that tries to change it on a non-empty dataset is rejected as a
validation error; otherwise the provided fields replace the old values. -/
def updateDataset (d : Dataset) (u : DatasetUpdate) : Except String Dataset :=
  match u.embedding_model with
  | some m =>
    if d.chunk_count ≠ 0 ∧ m ≠ d.embedding_model then
      .error "Can't change embedding model since some files already use it."
    else
      .ok { d with name := u.name.getD d.name, embedding_model := m }
  | none => .ok { d with name := u.name.getD d.name }

/-! ## Knowledge graph: incremental merge

Modelled from the spec's merge rule: nodes are keyed by normalized entity
name; merging two nodes unions their `source_id` sets and deduplicates their
description fragments (rendered joined with the distinguished `<SEP>`
separator seen in the API reference's graph response); edges are keyed by
the unordered (source, target) pair, union their `source_id` sets, and
their weights sum across merges of distinct documents.  Because
"reprocessing a document must merge, not duplicate, its contributed
subgraph" and `source_id` sets are append-only unions, a document's weight
contribution to an edge is recorded once per source id: each edge keeps the
set of per-source contributions and its weight is their sum, so re-merging
the same subgraph adds nothing new. -/

/-- A knowledge-graph node: the union of `source_id`s that contributed it
and the deduplicated set of description fragments. -/
structure KGNode where
  sourceIds : Finset String
  descriptions : Finset String
deriving DecidableEq

/-- A knowledge-graph edge: per-source weight contributions, keyed by the
contributing `source_id`.  The edge's `source_id` set and total weight are
derived views of this set. -/
structure KGEdge where
  contributions : Finset (String × ℚ)
deriving DecidableEq

/-- The edge's rendered weight: the documented sum across merges. -/
def KGEdge.weight (e : KGEdge) : ℚ :=
  e.contributions.sum Prod.snd

/-- The edge's `source_id` set. -/
def KGEdge.sourceIds (e : KGEdge) : Finset String :=
  e.contributions.image Prod.fst

/-- Merging two nodes with the same key unions source ids and deduplicated
descriptions. -/
def mergeNode (a b : KGNode) : KGNode :=
  ⟨a.sourceIds ∪ b.sourceIds, a.descriptions ∪ b.descriptions⟩

/-- Merging two edges with the same key unions their contribution sets;
contributions already present are deduplicated, so weights sum exactly once
per contributing source. -/
def mergeEdge (a b : KGEdge) : KGEdge :=
  ⟨a.contributions ∪ b.contributions⟩

/-- Pointwise merge of two keyed collections: a key present on both sides
merges the entries, a key present on one side keeps its entry. -/
def mergeOpt {α : Type} (m : α → α → α) : Option α → Option α → Option α
  | some a, some b => some (m a b)
  | some a, none => some a
  | none, b => b

/-- A dataset-level knowledge graph (or a per-document subgraph): nodes
keyed by normalized entity name, edges keyed by the normalized unordered
(source, target) pair. -/
structure KGraph where
  nodes : String → Option KGNode
  edges : String × String → Option KGEdge

/-- Modelled from the spec: `merge(dataset_graph, subgraph)` — pointwise
merge of the two keyed node and edge collections. -/
def mergeGraph (g h : KGraph) : KGraph where
  nodes k := mergeOpt mergeNode (g.nodes k) (h.nodes k)
  edges k := mergeOpt mergeEdge (g.edges k) (h.edges k)

/-! ## Helper lemmas: the merge operation is a pointwise semilattice join -/

theorem mergeNode_comm (a b : KGNode) : mergeNode a b = mergeNode b a := by
  simp only [mergeNode, KGNode.mk.injEq]
  exact ⟨Finset.union_comm _ _, Finset.union_comm _ _⟩

theorem mergeNode_assoc (a b c : KGNode) :
    mergeNode (mergeNode a b) c = mergeNode a (mergeNode b c) := by
  simp only [mergeNode, KGNode.mk.injEq]
  exact ⟨Finset.union_assoc _ _ _, Finset.union_assoc _ _ _⟩

theorem mergeNode_idem (a : KGNode) : mergeNode a a = a := by
  cases a
  simp only [mergeNode, KGNode.mk.injEq]
  exact ⟨Finset.union_self _, Finset.union_self _⟩

theorem mergeEdge_comm (a b : KGEdge) : mergeEdge a b = mergeEdge b a := by
  simp only [mergeEdge, KGEdge.mk.injEq]
  exact Finset.union_comm _ _

theorem mergeEdge_assoc (a b c : KGEdge) :
    mergeEdge (mergeEdge a b) c = mergeEdge a (mergeEdge b c) := by
  simp only [mergeEdge, KGEdge.mk.injEq]
  exact Finset.union_assoc _ _ _

theorem mergeEdge_idem (a : KGEdge) : mergeEdge a a = a := by
  cases a
  simp only [mergeEdge, KGEdge.mk.injEq]
  exact Finset.union_self _

theorem mergeOpt_comm {α : Type} (m : α → α → α)
    (hm : ∀ a b, m a b = m b a) (x y : Option α) :
    mergeOpt m x y = mergeOpt m y x := by
  cases x <;> cases y <;> simp [mergeOpt, hm]

theorem mergeOpt_assoc {α : Type} (m : α → α → α)
    (hm : ∀ a b c, m (m a b) c = m a (m b c)) (x y z : Option α) :
    mergeOpt m (mergeOpt m x y) z = mergeOpt m x (mergeOpt m y z) := by
  cases x <;> cases y <;> cases z <;> simp [mergeOpt, hm]

theorem mergeOpt_idem {α : Type} (m : α → α → α)
    (hm : ∀ a, m a a = a) (x : Option α) :
    mergeOpt m x x = x := by
  cases x <;> simp [mergeOpt, hm]

theorem KGraph.ext_of (g h : KGraph)
    (hn : ∀ k, g.nodes k = h.nodes k) (he : ∀ k, g.edges k = h.edges k) :
    g = h := by
  cases g
  cases h
  simp only [KGraph.mk.injEq]
  exact ⟨funext hn, funext he⟩

theorem mergeGraph_comm (g h : KGraph) : mergeGraph g h = mergeGraph h g :=
  KGraph.ext_of _ _
    (fun k => mergeOpt_comm mergeNode mergeNode_comm (g.nodes k) (h.nodes k))
    (fun k => mergeOpt_comm mergeEdge mergeEdge_comm (g.edges k) (h.edges k))

theorem mergeGraph_assoc (g h i : KGraph) :
    mergeGraph (mergeGraph g h) i = mergeGraph g (mergeGraph h i) :=
  KGraph.ext_of _ _
    (fun k => mergeOpt_assoc mergeNode mergeNode_assoc (g.nodes k) (h.nodes k) (i.nodes k))
    (fun k => mergeOpt_assoc mergeEdge mergeEdge_assoc (g.edges k) (h.edges k) (i.edges k))

theorem mergeGraph_idem (g : KGraph) : mergeGraph g g = g :=
  KGraph.ext_of _ _
    (fun k => mergeOpt_idem mergeNode mergeNode_idem (g.nodes k))
    (fun k => mergeOpt_idem mergeEdge mergeEdge_idem (g.edges k))

/-! ## Claim theorems -/

/-- C1: without a rerank model id, every candidate's combined score is
`vector_similarity_weight * vector_similarity +
(1 - vector_similarity_weight) * term_similarity`; the weight defaults to
0.3, and a chunk with vector similarity 0.8 and term similarity 0.5 scores
exactly 0.59 under the default weight. -/
theorem retrieval_score_formula :
    (∀ (w : ℚ) (c : Candidate),
      combinedScore none w c = w * c.vectorSim + (1 - w) * c.termSim)
    ∧ defaultVectorSimilarityWeight = 3 / 10
    ∧ combinedScore none defaultVectorSimilarityWeight ⟨"c1", 8 / 10, 5 / 10⟩ = 59 / 100 := by
  refine ⟨fun w c => rfl, rfl, ?_⟩
  norm_num [combinedScore, defaultVectorSimilarityWeight]

/-- C2: when an HTTP body is a `code` envelope, the request succeeds with
the `data` payload exactly when `code = 0` (falling back to the whole body
when `data` is absent), and throws the server's `message` — or a generic
message naming the code — whenever `code` is non-zero. -/
theorem envelope_code_semantics (α : Type) (e : Envelope α) :
    (e.code = 0 → handleEnvelope e =
      (match e.data with
       | some a => .ok (.payload a)
       | none => .ok (.wholeBody e)))
    ∧ (e.code ≠ 0 → handleEnvelope e =
      .error (e.message.getD ("Ragflow request error (code " ++ toString e.code ++ ")"))) := by
  constructor
  · intro h
    simp [handleEnvelope, h]
  · intro h
    simp [handleEnvelope, h]

theorem envelope_code_semantics_witness :
    handleEnvelope (⟨102, some "`datasets` is required.", none⟩ : Envelope Nat) =
        .error "`datasets` is required."
    ∧ handleEnvelope (⟨0, none, some 7⟩ : Envelope Nat) = .ok (.payload 7) :=
  ⟨(envelope_code_semantics Nat ⟨102, some "`datasets` is required.", none⟩).2 (by decide),
   (envelope_code_semantics Nat ⟨0, none, some 7⟩).1 rfl⟩

/-- C3: every chunk that survives the similarity-threshold step has
combined score ≥ t, every candidate scoring below t is discarded, and the
threshold defaults to 0.2. -/
theorem threshold_bounds_returned_chunks :
    (∀ (rs : Option ℚ) (w t : ℚ) (cands : List Candidate) (c : Candidate),
      c ∈ applyThreshold rs w t cands → t ≤ combinedScore rs w c)
    ∧ (∀ (rs : Option ℚ) (w t : ℚ) (cands : List Candidate) (c : Candidate),
      combinedScore rs w c < t → c ∉ applyThreshold rs w t cands)
    ∧ defaultSimilarityThreshold = 2 / 10 := by
  refine ⟨?_, ?_, rfl⟩
  · intro rs w t cands c hc
    have := (List.mem_filter.mp hc).2
    simpa [not_lt] using this
  · intro rs w t cands c hlt hc
    have := (List.mem_filter.mp hc).2
    simp only [decide_eq_true_eq, not_lt] at this
    exact absurd hlt (not_lt.mpr this)

theorem threshold_bounds_returned_chunks_witness :
    (5 : ℚ) / 10 ≤ combinedScore none (3 / 10) ⟨"c1", 8 / 10, 5 / 10⟩ :=
  threshold_bounds_returned_chunks.1 none (3 / 10) (5 / 10)
    [⟨"c1", 8 / 10, 5 / 10⟩] ⟨"c1", 8 / 10, 5 / 10⟩
    (by
      refine List.mem_filter.mpr ⟨List.mem_singleton.mpr rfl, ?_⟩
      simp only [decide_eq_true_eq, not_lt]
      norm_num [combinedScore])

/-- C4: with `logic = and` a document is in the filtered candidate pool iff
it satisfies every listed condition; with `logic = or` iff it satisfies at
least one. -/
theorem metadata_logic_semantics (mc : MetadataCondition) (docs : List DocMeta) (d : DocMeta) :
    (mc.logic = .and →
      (d ∈ filterDocs mc docs ↔
        d ∈ docs ∧ ∀ c ∈ mc.conditions, evalCondition d c = true))
    ∧ (mc.logic = .or →
      (d ∈ filterDocs mc docs ↔
        d ∈ docs ∧ ∃ c ∈ mc.conditions, evalCondition d c = true)) := by
  constructor
  · intro h
    simp [filterDocs, List.mem_filter, evalMetadataCondition, h, List.all_eq_true]
  · intro h
    simp [filterDocs, List.mem_filter, evalMetadataCondition, h, List.any_eq_true]

theorem metadata_logic_semantics_witness :
    (⟨"d1", [("author", "bob")]⟩ : DocMeta) ∈
      filterDocs ⟨.and, [⟨"author", .eq, "bob"⟩]⟩ [⟨"d1", [("author", "bob")]⟩] :=
  ((metadata_logic_semantics ⟨.and, [⟨"author", .eq, "bob"⟩]⟩
      [⟨"d1", [("author", "bob")]⟩] ⟨"d1", [("author", "bob")]⟩).1 rfl).mpr
    ⟨List.mem_singleton.mpr rfl, by decide⟩

/-- C5 (counterexample): the claim lists `is`, `not is`, `in`, `not in` and
`end with` among the accepted comparison operators, but the documented
`comparison_operator` grammar rejects every one of them — none of these
strings parses — while accepting `=`, `≠` and the rest of its own list. -/
theorem metadata_operator_grammar_counterexample :
    parseComparisonOperator "is" = none
    ∧ parseComparisonOperator "not is" = none
    ∧ parseComparisonOperator "in" = none
    ∧ parseComparisonOperator "not in" = none
    ∧ parseComparisonOperator "end with" = none
    ∧ parseComparisonOperator "=" = some .eq
    ∧ parseComparisonOperator "≠" = some .ne := by
  refine ⟨?_, ?_, ?_, ?_, ?_, ?_, ?_⟩ <;> decide

set_option maxHeartbeats 1600000 in
/-- C5 (amended): the metadata-condition grammar accepts exactly the
operators `contains` / `not contains` (substring), `start with` (prefix),
`empty` / `not empty` (value ignored), string equality `=` and inequality
`≠`, and numeric `>` `<` `≥` `≤`; each accepted operator evaluates with the
stated semantics. -/
theorem metadata_operator_grammar :
    (∀ s : String, (parseComparisonOperator s).isSome = true ↔
      s ∈ ["contains", "not contains", "start with", "empty", "not empty",
           "=", "≠", ">", "<", "≥", "≤"])
    ∧ (∀ f v : String, evalOp .containsOp (some f) v = f.containsSubstr v)
    ∧ (∀ f v : String, evalOp .notContainsOp (some f) v = ! f.containsSubstr v)
    ∧ (∀ f v : String, evalOp .startWith (some f) v = f.startsWith v)
    ∧ (∀ f v : String, evalOp .eq (some f) v = (f == v))
    ∧ (∀ f v : String, evalOp .ne (some f) v = (f != v))
    ∧ (∀ v : String, evalOp .emptyOp none v = true ∧ evalOp .notEmptyOp none v = false)
    ∧ (∀ f v : String, evalOp .emptyOp (some f) v = (f == ""))
    ∧ (∀ (f v : String) (a b : Int), parseIntString f = some a → parseIntString v = some b →
        (evalOp .gt (some f) v = decide (b < a)
          ∧ evalOp .lt (some f) v = decide (a < b)
          ∧ evalOp .ge (some f) v = decide (b ≤ a)
          ∧ evalOp .le (some f) v = decide (a ≤ b))) := by
  refine ⟨?_, fun f v => rfl, fun f v => rfl, fun f v => rfl, fun f v => rfl,
    fun f v => rfl, fun v => ⟨rfl, rfl⟩, fun f v => rfl, ?_⟩
  · intro s
    constructor
    · intro hs
      simp only [parseComparisonOperator] at hs
      split_ifs at hs <;> simp_all
    · intro hs
      fin_cases hs <;> decide
  · intro f v a b hf hv
    refine ⟨?_, ?_, ?_, ?_⟩ <;>
      simp [evalOp, evalOp.numCmp, hf, hv, Option.bind]

theorem metadata_operator_grammar_witness :
    evalOp .gt (some "12") "9" = true :=
  ((metadata_operator_grammar.2.2.2.2.2.2.2.2 "12" "9" 12 9 (by decide) (by decide)).1).trans
    (by decide)

/-- C6: validation and not-found errors surface synchronously: every HTTP
status ≥ 400 becomes a thrown error whose message carries the response text
(or a generic message when the text is empty), a retrieval request naming
no datasets and no documents fails as a validation error, and mixed
embedding models across the selected documents fail as a validation
error. -/
theorem errors_surfaced_synchronously :
    (∀ (status : Nat) (text : String), 400 ≤ status →
      handleHttpStatus status text = .error (httpErrorMessage status text))
    ∧ (∀ (status : Nat) (text : String), text ≠ "" →
      httpErrorMessage status text = "Ragflow request error: " ++ text)
    ∧ (∀ docModels : List String,
      validateRetrieval [] [] docModels = .error "`datasets` is required.")
    ∧ (∀ datasetIds documentIds docModels : List String, datasetIds ≠ [] →
      allSameModel docModels = false →
      validateRetrieval datasetIds documentIds docModels =
        .error "All documents must use the same embedding model.") := by
  refine ⟨?_, ?_, ?_, ?_⟩
  · intro status text h
    simp [handleHttpStatus, h]
  · intro status text h
    simp [httpErrorMessage, h]
  · intro docModels
    simp [validateRetrieval]
  · intro datasetIds documentIds docModels h hm
    simp [validateRetrieval, hm, List.isEmpty_iff, h]

theorem errors_surfaced_synchronously_witness :
    handleHttpStatus 404 "Not Found" = .error "Ragflow request error: Not Found"
    ∧ validateRetrieval ["ds1"] [] ["bge@ollama", "gte@ollama"] =
        .error "All documents must use the same embedding model." := by
  constructor
  · rw [errors_surfaced_synchronously.1 404 "Not Found" (by norm_num)]
    rfl
  · exact errors_surfaced_synchronously.2.2.2 ["ds1"] [] ["bge@ollama", "gte@ollama"]
      (by decide) (by decide)

/-- C7: once a dataset has `chunk_count > 0`, a successful update never
changes its embedding-model field. -/
theorem embedding_model_immutable (d : Dataset) (u : DatasetUpdate) (d' : Dataset)
    (hc : 0 < d.chunk_count) (h : updateDataset d u = .ok d') :
    d'.embedding_model = d.embedding_model := by
  rcases hu : u.embedding_model with _ | m
  · simp only [updateDataset, hu, Except.ok.injEq] at h
    subst h
    rfl
  · simp only [updateDataset, hu] at h
    by_cases hm : m = d.embedding_model
    · rw [if_neg (by simp [hm])] at h
      injection h with h2
      subst h2
      exact hm
    · rw [if_pos ⟨Nat.pos_iff_ne_zero.mp hc, hm⟩] at h
      exact Except.noConfusion h

theorem embedding_model_immutable_witness :
    (⟨"kb2", "bge@ollama", 5⟩ : Dataset).embedding_model =
      (⟨"kb", "bge@ollama", 5⟩ : Dataset).embedding_model :=
  embedding_model_immutable ⟨"kb", "bge@ollama", 5⟩ ⟨some "kb2", some "bge@ollama"⟩
    ⟨"kb2", "bge@ollama", 5⟩ (by decide)
    (by simp [updateDataset])

/-- C8: knowledge-graph merge is commutative and idempotent: merging
document A's subgraph then B's into a dataset graph gives the same graph as
merging B then A, and merging the same subgraph twice gives the same graph
as merging it once. -/
theorem kg_merge_comm_idem :
    (∀ g a b : KGraph, mergeGraph (mergeGraph g a) b = mergeGraph (mergeGraph g b) a)
    ∧ (∀ g a : KGraph, mergeGraph (mergeGraph g a) a = mergeGraph g a) := by
  constructor
  · intro g a b
    rw [mergeGraph_assoc, mergeGraph_assoc, mergeGraph_comm a b]
  · intro g a
    rw [mergeGraph_assoc, mergeGraph_idem]

/-- C9: the client's delete operations always send a singleton `ids` list —
never `null` — so neither can trigger the documented delete-all-datasets
behaviour. -/
theorem delete_requests_never_null :
    ∀ id knowledgeBaseId fileId : String,
      (deleteKnowledgeBaseRequest id).ids = some [id]
      ∧ (deleteFileRequest knowledgeBaseId fileId).ids = some [fileId]
      ∧ deleteAllTriggered (deleteKnowledgeBaseRequest id).ids = false
      ∧ deleteAllTriggered (deleteFileRequest knowledgeBaseId fileId).ids = false :=
  fun _ _ _ => ⟨rfl, rfl, rfl, rfl⟩

/-- C10: the shared request helper fails fast when unconfigured — empty
`baseUrl` throws its configuration error, then empty `apiKey` throws its
own, both before any network request; with both fields non-empty the
configuration-error branches are unreachable and a network call is
issued. -/
theorem request_fails_fast_unconfigured (baseUrl apiKey path : String) :
    (baseUrl = "" →
      requestAction baseUrl apiKey path = .configError "Ragflow base URL is not configured")
    ∧ (baseUrl ≠ "" → apiKey = "" →
      requestAction baseUrl apiKey path = .configError "Ragflow API key is not configured")
    ∧ (baseUrl ≠ "" → apiKey ≠ "" →
      requestAction baseUrl apiKey path =
        .networkCall (baseUrl ++ (if path.startsWith "/" then "" else "/") ++ path)) := by
  refine ⟨?_, ?_, ?_⟩
  · intro h
    simp [requestAction, h]
  · intro h1 h2
    simp [requestAction, h1, h2]
  · intro h1 h2
    simp [requestAction, h1, h2]

theorem request_fails_fast_unconfigured_witness :
    requestAction "" "key" "/api/v1/datasets" =
      .configError "Ragflow base URL is not configured"
    ∧ requestAction "http://x" "" "/api/v1/datasets" =
      .configError "Ragflow API key is not configured" :=
  ⟨(request_fails_fast_unconfigured "" "key" "/api/v1/datasets").1 rfl,
   (request_fails_fast_unconfigured "http://x" "" "/api/v1/datasets").2.1 (by decide) rfl⟩

end RagflowSync
